import Mathlib

/-!
# Verification of the Ucotron Go SDK retry/backoff request executor

Shallow embedding of the Go client in `ucotron-go` (`client.go` / `errors.go`):
the retry-with-backoff request execution policy (`doRequest`), backoff delay
computation (`retryDelay`), error-body parsing (`parseServerError`), namespace
resolution (`resolveNamespace`), request-header assembly, and client
construction with defaulting (`NewClient`).

Modelling conventions:
* Go `int` fields are modelled as unbounded `Int` (the claims under study are
  about the algorithm, not 64-bit wraparound).
* `retryDelay` in Go computes `float64(BaseDelayMs) * math.Pow(2, attempt)`
  and caps at `float64(MaxDelayMs)`.  Multiplying an integer-valued float by a
  power of two is exact in IEEE float64 (absent overflow, where the cap fires
  in both models), so the computation is embedded exactly over `Int`.
* The HTTP transport is an external collaborator: one logical call is driven
  by a function `Nat → AttemptEvent` giving, per attempt index, the outcome of
  that round trip and whether the caller's context is cancelled by the time
  the retry `select` runs.
* `encoding/json.Unmarshal` into `APIErrorBody` is an external collaborator as
  well: it is a parameter `unmarshal : String → Option APIErrorBody`
  (`none` = Unmarshal returned an error).
-/

namespace Ucotron

/-- Constants from the Go source (`const` block in client.go). -/
def namespaceHeader : String := "X-Ucotron-Namespace"

def defaultTimeoutMs : Int := 30000

def defaultMaxRetries : Int := 3

def defaultBaseDelayMs : Int := 100

def defaultMaxDelayMs : Int := 5000

/-- Go struct `RetryConfig`: retry behavior for transient errors. -/
structure RetryConfig where
  MaxRetries : Int
  BaseDelayMs : Int
  MaxDelayMs : Int
deriving Repr, DecidableEq

/-- Go struct `ClientConfig` (a `nil` pointer is modelled by `Option` at the
`NewClient` call site; the `Retry` field is a pointer, hence `Option`). -/
structure ClientConfig where
  TimeoutMs : Int
  Retry : Option RetryConfig
  DefaultNamespace : String
deriving Repr, DecidableEq

/-- Go struct `Client` (the `httpClient` is kept only as its timeout). -/
structure Client where
  baseURL : String
  timeoutMs : Int
  retryConfig : RetryConfig
  defaultNamespace : String
deriving Repr, DecidableEq

/-- Go `strings.TrimRight(serverURL, "/")`. -/
def trimRightSlashes (s : String) : String :=
  String.mk ((s.data.reverse.dropWhile (fun c => c = '/')).reverse)

/-- Go `NewClient(serverURL, config)`: applies defaults, taking each supplied
field verbatim exactly when it passes that field's validity test
(`TimeoutMs > 0`, `MaxRetries >= 0`, `BaseDelayMs > 0`, `MaxDelayMs > 0`,
`DefaultNamespace != ""`). -/
def NewClient (serverURL : String) (config : Option ClientConfig) : Client :=
  let url := trimRightSlashes serverURL
  let retry0 : RetryConfig :=
    ⟨defaultMaxRetries, defaultBaseDelayMs, defaultMaxDelayMs⟩
  match config with
  | none => ⟨url, defaultTimeoutMs, retry0, "default"⟩
  | some cfg =>
    let timeoutMs := if cfg.TimeoutMs > 0 then cfg.TimeoutMs else defaultTimeoutMs
    let retry : RetryConfig :=
      match cfg.Retry with
      | none => retry0
      | some r =>
        ⟨if r.MaxRetries ≥ 0 then r.MaxRetries else retry0.MaxRetries,
         if r.BaseDelayMs > 0 then r.BaseDelayMs else retry0.BaseDelayMs,
         if r.MaxDelayMs > 0 then r.MaxDelayMs else retry0.MaxDelayMs⟩
    let ns := if cfg.DefaultNamespace ≠ "" then cfg.DefaultNamespace else "default"
    ⟨url, timeoutMs, retry, ns⟩

/-- Go `(*Client).resolveNamespace`: override > default. -/
def resolveNamespace (c : Client) (override : String) : String :=
  if override ≠ "" then override else c.defaultNamespace

/-- Go `(*Client).retryDelay` in milliseconds: exponential backoff
`BaseDelayMs * 2^attempt` capped at `MaxDelayMs` (see the file header for why
the float64 computation is embedded exactly). -/
def retryDelayMs (cfg : RetryConfig) (attempt : Nat) : Int :=
  let delay := cfg.BaseDelayMs * 2 ^ attempt
  if delay > cfg.MaxDelayMs then cfg.MaxDelayMs else delay

/-- Go struct `APIErrorBody` (`code`, `message` JSON fields). -/
structure APIErrorBody where
  Code : String
  Message : String
deriving Repr, DecidableEq

/-- Go struct `UcotronServerError` (errors.go). -/
structure UcotronServerError where
  StatusCode : Nat
  Code : String
  Message : String
deriving Repr, DecidableEq

/-- Go `net/http.StatusText` (the reason-phrase table of the Go standard
library; returns `""` for unknown codes). -/
def statusText (code : Nat) : String :=
  match code with
  | 100 => "Continue"
  | 101 => "Switching Protocols"
  | 102 => "Processing"
  | 103 => "Early Hints"
  | 200 => "OK"
  | 201 => "Created"
  | 202 => "Accepted"
  | 203 => "Non-Authoritative Information"
  | 204 => "No Content"
  | 205 => "Reset Content"
  | 206 => "Partial Content"
  | 207 => "Multi-Status"
  | 208 => "Already Reported"
  | 226 => "IM Used"
  | 300 => "Multiple Choices"
  | 301 => "Moved Permanently"
  | 302 => "Found"
  | 303 => "See Other"
  | 304 => "Not Modified"
  | 305 => "Use Proxy"
  | 307 => "Temporary Redirect"
  | 308 => "Permanent Redirect"
  | 400 => "Bad Request"
  | 401 => "Unauthorized"
  | 402 => "Payment Required"
  | 403 => "Forbidden"
  | 404 => "Not Found"
  | 405 => "Method Not Allowed"
  | 406 => "Not Acceptable"
  | 407 => "Proxy Authentication Required"
  | 408 => "Request Timeout"
  | 409 => "Conflict"
  | 410 => "Gone"
  | 411 => "Length Required"
  | 412 => "Precondition Failed"
  | 413 => "Request Entity Too Large"
  | 414 => "Request URI Too Long"
  | 415 => "Unsupported Media Type"
  | 416 => "Requested Range Not Satisfiable"
  | 417 => "Expectation Failed"
  | 418 => "I\x27m a teapot"
  | 421 => "Misdirected Request"
  | 422 => "Unprocessable Entity"
  | 423 => "Locked"
  | 424 => "Failed Dependency"
  | 425 => "Too Early"
  | 426 => "Upgrade Required"
  | 428 => "Precondition Required"
  | 429 => "Too Many Requests"
  | 431 => "Request Header Fields Too Large"
  | 451 => "Unavailable For Legal Reasons"
  | 500 => "Internal Server Error"
  | 501 => "Not Implemented"
  | 502 => "Bad Gateway"
  | 503 => "Service Unavailable"
  | 504 => "Gateway Timeout"
  | 505 => "HTTP Version Not Supported"
  | 506 => "Variant Also Negotiates"
  | 507 => "Insufficient Storage"
  | 508 => "Loop Detected"
  | 510 => "Not Extended"
  | 511 => "Network Authentication Required"
  | _ => ""

/-- Go `parseServerError(statusCode, body)`: best-effort parse of the error
body.  `unmarshal` is the external `json.Unmarshal` into `APIErrorBody`
(`none` iff Unmarshal returned a non-nil error).  The Go guard is
`err == nil && apiErr.Message != ""`; otherwise fall back to the HTTP reason
phrase and the raw body text.  Never panics: total by construction. -/
def parseServerError (unmarshal : String → Option APIErrorBody)
    (statusCode : Nat) (body : String) : UcotronServerError :=
  match unmarshal body with
  | some apiErr =>
    if apiErr.Message ≠ "" then
      ⟨statusCode, apiErr.Code, apiErr.Message⟩
    else
      ⟨statusCode, statusText statusCode, body⟩
  | none => ⟨statusCode, statusText statusCode, body⟩

/-- Request headers assembled in `doRequest` before each attempt:
`Accept` always, `Content-Type` when a body is present, and the namespace
header is set unconditionally via `req.Header.Set(namespaceHeader, ns)`. -/
def requestHeaders (hasBody : Bool) (ns : String) : List (String × String) :=
  [("Accept", "application/json")]
    ++ (if hasBody then [("Content-Type", "application/json")] else [])
    ++ [(namespaceHeader, ns)]

/-- The header list `Health` (and `Metrics`) produce: GET with nil body and
namespace argument `""` (these endpoint methods take no namespace option). -/
def healthRequestHeaders (c : Client) : List (String × String) :=
  requestHeaders false (resolveNamespace c "")

/-- The typed errors a call can resolve with (errors.go plus `ctx.Err()`):
`UcotronServerError`, `UcotronConnectionError`, `UcotronRetriesExhaustedError`
(whose `LastError` is `nil` when no attempt ran), and the Go context error
returned verbatim by `return nil, ctx.Err()`. -/
inductive UcotronError where
  | server (e : UcotronServerError)
  | connection (Message : String)
  | retriesExhausted (Attempts : Int) (LastError : Option UcotronError)
  | ctxCanceled
deriving Repr

/-- Outcome of one transport round trip inside `doRequest`:
`connFail` = `httpClient.Do` returned an error, `readFail` = reading the
response body failed, `response` = a status code and body were received. -/
inductive TransportOutcome where
  | connFail
  | readFail
  | response (status : Nat) (body : String)
deriving Repr

/-- One attempt of a logical call, as the executor observes it:
the transport outcome, plus whether the caller's context is done by the time
the retry `select { <-ctx.Done() / <-time.After(...) }` runs after a failed
attempt (`true` both for cancellation that fired in flight — making
`httpClient.Do` fail — and for cancellation that fires during the backoff
sleep; Go contexts stay done once done). -/
structure AttemptEvent where
  outcome : TransportOutcome
  ctxDoneAtSelect : Bool
deriving Repr

/-- The `UcotronConnectionError` message recorded when `httpClient.Do`
fails: `fmt.Sprintf("request to %s %s failed", method, path)`. -/
def connFailMessage (method path : String) : String :=
  "request to " ++ method ++ " " ++ path ++ " failed"

/-- The `UcotronConnectionError` message recorded when reading the response
body fails. -/
def readFailMessage : String := "failed to read response body"

/-- The error `doRequest` records in `lastErr` for a given failed outcome
(meaningful for retryable outcomes). -/
def recordedErr (unmarshal : String → Option APIErrorBody)
    (method path : String) : TransportOutcome → UcotronError
  | .connFail => .connection (connFailMessage method path)
  | .readFail => .connection readFailMessage
  | .response status body => .server (parseServerError unmarshal status body)

/-- Whether `doRequest` treats an outcome as a retryable failure: transport
failures always; a response exactly when it is neither 2xx (success) nor 4xx
(non-retryable client error). -/
def isRetryable : TransportOutcome → Bool
  | .connFail => true
  | .readFail => true
  | .response status _ =>
    !(200 ≤ status && status < 300) && !(400 ≤ status && status < 500)

/-- Observable trace of one logical call: how many transport attempts ran,
which backoff sleeps completed (in ms, in order), and the final result. -/
structure CallTrace where
  attempts : Nat
  sleepsMs : List Int
  result : Except UcotronError String
deriving Repr

/-- The attempt loop of Go `doRequest`, embedded with `fuel` = number of loop
iterations still allowed (`maxAttempts - attempt`); `attempt` is the Go loop
counter; `lastErr` the recorded last error.  Per iteration: a `connFail` or
`readFail` sets `lastErr` and retries; a 2xx response returns its body; a 4xx
response returns the parsed server error immediately; any other response sets
`lastErr` to the parsed server error and retries.  "Retries" means: if this
was the final allowed attempt (`attempt == maxAttempts-1`, i.e. the remaining
fuel after this iteration is 0), fall out of the loop into the
`UcotronRetriesExhaustedError` return; otherwise run the `select` — if the
context is done return `ctx.Err()`, else sleep `retryDelay(attempt)` and loop. -/
def doRequestLoop (unmarshal : String → Option APIErrorBody)
    (cfg : RetryConfig) (method path : String) (events : Nat → AttemptEvent) :
    Nat → Nat → Option UcotronError → CallTrace
  | _, 0, lastErr =>
    ⟨0, [], .error (.retriesExhausted (cfg.MaxRetries + 1) lastErr)⟩
  | attempt, fuel + 1, _ =>
    let ev := events attempt
    let retryOrStop (newLast : UcotronError) : CallTrace :=
      match fuel with
      | 0 =>
        ⟨1, [], .error (.retriesExhausted (cfg.MaxRetries + 1) (some newLast))⟩
      | f + 1 =>
        if ev.ctxDoneAtSelect then
          ⟨1, [], .error .ctxCanceled⟩
        else
          let t := doRequestLoop unmarshal cfg method path events
            (attempt + 1) (f + 1) (some newLast)
          ⟨t.attempts + 1, retryDelayMs cfg attempt :: t.sleepsMs, t.result⟩
    match ev.outcome with
    | .connFail => retryOrStop (.connection (connFailMessage method path))
    | .readFail => retryOrStop (.connection readFailMessage)
    | .response status body =>
      if 200 ≤ status ∧ status < 300 then
        ⟨1, [], .ok body⟩
      else if 400 ≤ status ∧ status < 500 then
        ⟨1, [], .error (.server (parseServerError unmarshal status body))⟩
      else
        retryOrStop (.server (parseServerError unmarshal status body))

/-- Go `doRequest`: runs the attempt loop with `maxAttempts =
retryConfig.MaxRetries + 1` iterations allowed (a Go `for attempt := 0;
attempt < maxAttempts` loop runs `max 0 maxAttempts = (MaxRetries+1).toNat`
iterations), starting with `lastErr = nil`. -/
def doRequest (unmarshal : String → Option APIErrorBody) (c : Client)
    (method path : String) (events : Nat → AttemptEvent) : CallTrace :=
  doRequestLoop unmarshal c.retryConfig method path events 0
    (c.retryConfig.MaxRetries + 1).toNat none

/-! ## Basic lemmas about the attempt loop -/

/-- Classification used by the loop, in `Prop` form. -/
lemma isRetryable_response_iff (s : Nat) (b : String) :
    isRetryable (.response s b) = true ↔
      ¬(200 ≤ s ∧ s < 300) ∧ ¬(400 ≤ s ∧ s < 500) := by
  simp [isRetryable]
  omega

/-- A 5xx status is retryable. -/
lemma isRetryable_of_5xx (s : Nat) (b : String) (h : 500 ≤ s) :
    isRetryable (.response s b) = true := by
  rw [isRetryable_response_iff]
  omega

/-- Unfolding: a 2xx response ends the loop with the body. -/
lemma doRequestLoop_success (u : String → Option APIErrorBody)
    (cfg : RetryConfig) (m p : String) (ev : Nat → AttemptEvent)
    (a f : Nat) (last : Option UcotronError) (s : Nat) (b : String)
    (ho : (ev a).outcome = .response s b) (h2 : 200 ≤ s ∧ s < 300) :
    doRequestLoop u cfg m p ev a (f + 1) last = ⟨1, [], .ok b⟩ := by
  rw [doRequestLoop.eq_def]
  dsimp only
  rw [ho]
  dsimp only
  rw [if_pos h2]

/-- Unfolding: a 4xx response ends the loop immediately with the parsed
server error. -/
lemma doRequestLoop_clientError (u : String → Option APIErrorBody)
    (cfg : RetryConfig) (m p : String) (ev : Nat → AttemptEvent)
    (a f : Nat) (last : Option UcotronError) (s : Nat) (b : String)
    (ho : (ev a).outcome = .response s b) (h4 : 400 ≤ s ∧ s < 500) :
    doRequestLoop u cfg m p ev a (f + 1) last =
      ⟨1, [], .error (.server (parseServerError u s b))⟩ := by
  rw [doRequestLoop.eq_def]
  dsimp only
  rw [ho]
  dsimp only
  rw [if_neg (by omega), if_pos h4]

/-- Unfolding: a retryable failure on the final allowed attempt falls out of
the loop into the retries-exhausted return, carrying the recorded error. -/
lemma doRequestLoop_finalFailure (u : String → Option APIErrorBody)
    (cfg : RetryConfig) (m p : String) (ev : Nat → AttemptEvent)
    (a : Nat) (last : Option UcotronError)
    (hr : isRetryable (ev a).outcome = true) :
    doRequestLoop u cfg m p ev a 1 last =
      ⟨1, [], .error (.retriesExhausted (cfg.MaxRetries + 1)
        (some (recordedErr u m p (ev a).outcome)))⟩ := by
  rw [doRequestLoop.eq_def]
  dsimp only
  cases ho : (ev a).outcome with
  | connFail => dsimp only [recordedErr]
  | readFail => dsimp only [recordedErr]
  | response s b =>
    rw [ho] at hr
    rw [isRetryable_response_iff] at hr
    dsimp only [recordedErr]
    rw [if_neg hr.1, if_neg hr.2]

/-- Unfolding: a retryable failure with the context done at the `select`,
when further attempts remain, returns `ctx.Err()` at once. -/
lemma doRequestLoop_cancel (u : String → Option APIErrorBody)
    (cfg : RetryConfig) (m p : String) (ev : Nat → AttemptEvent)
    (a f : Nat) (last : Option UcotronError)
    (hr : isRetryable (ev a).outcome = true)
    (hc : (ev a).ctxDoneAtSelect = true) :
    doRequestLoop u cfg m p ev a (f + 2) last =
      ⟨1, [], .error .ctxCanceled⟩ := by
  rw [doRequestLoop.eq_def]
  dsimp only
  cases ho : (ev a).outcome with
  | connFail =>
    dsimp only
    rw [if_pos hc]
  | readFail =>
    dsimp only
    rw [if_pos hc]
  | response s b =>
    rw [ho] at hr
    rw [isRetryable_response_iff] at hr
    dsimp only
    rw [if_neg hr.1, if_neg hr.2, if_pos hc]

/-- Unfolding: a retryable failure with the context live, when further
attempts remain, sleeps the backoff delay and continues the loop with the
recorded error. -/
lemma doRequestLoop_step (u : String → Option APIErrorBody)
    (cfg : RetryConfig) (m p : String) (ev : Nat → AttemptEvent)
    (a f : Nat) (last : Option UcotronError)
    (hr : isRetryable (ev a).outcome = true)
    (hc : (ev a).ctxDoneAtSelect = false) :
    doRequestLoop u cfg m p ev a (f + 2) last =
      let t := doRequestLoop u cfg m p ev (a + 1) (f + 1)
        (some (recordedErr u m p (ev a).outcome))
      ⟨t.attempts + 1, retryDelayMs cfg a :: t.sleepsMs, t.result⟩ := by
  have hc' : ¬((ev a).ctxDoneAtSelect = true) := by simp [hc]
  rw [doRequestLoop.eq_def]
  dsimp only
  cases ho : (ev a).outcome with
  | connFail =>
    dsimp only [recordedErr]
    rw [if_neg hc']
  | readFail =>
    dsimp only [recordedErr]
    rw [if_neg hc']
  | response s b =>
    rw [ho] at hr
    rw [isRetryable_response_iff] at hr
    dsimp only [recordedErr]
    rw [if_neg hr.1, if_neg hr.2, if_neg hc']

/-- If attempts `a, a+1, …, a+f` all fail retryably with the context live
before the last one, the loop with `f+1` fuel makes all `f+1` attempts and
exhausts, recording the last attempt's error. -/
lemma doRequestLoop_all_retryable (u : String → Option APIErrorBody)
    (cfg : RetryConfig) (m p : String) (ev : Nat → AttemptEvent) (f : Nat) :
    ∀ (a : Nat) (last : Option UcotronError),
      (∀ j, j < f → isRetryable (ev (a + j)).outcome = true ∧
        (ev (a + j)).ctxDoneAtSelect = false) →
      isRetryable (ev (a + f)).outcome = true →
      (doRequestLoop u cfg m p ev a (f + 1) last).attempts = f + 1 ∧
      (doRequestLoop u cfg m p ev a (f + 1) last).result =
        .error (.retriesExhausted (cfg.MaxRetries + 1)
          (some (recordedErr u m p (ev (a + f)).outcome))) := by
  induction f with
  | zero =>
    intro a last _ hf
    rw [Nat.add_zero] at hf
    rw [doRequestLoop_finalFailure u cfg m p ev a last hf]
    exact ⟨rfl, by rw [Nat.add_zero]⟩
  | succ n ih =>
    intro a last hpre hf
    have h0 := hpre 0 (by omega)
    rw [Nat.add_zero] at h0
    rw [doRequestLoop_step u cfg m p ev a n last h0.1 h0.2]
    dsimp only
    have hpre' : ∀ j, j < n → isRetryable (ev (a + 1 + j)).outcome = true ∧
        (ev (a + 1 + j)).ctxDoneAtSelect = false := by
      intro j hj
      have := hpre (j + 1) (by omega)
      rwa [show a + (j + 1) = a + 1 + j by omega] at this
    have hf' : isRetryable (ev (a + 1 + n)).outcome = true := by
      rwa [show a + 1 + n = a + (n + 1) by omega]
    have h := ih (a + 1) (some (recordedErr u m p (ev a).outcome)) hpre' hf'
    refine ⟨by rw [h.1], ?_⟩
    rw [h.2, show a + 1 + n = a + (n + 1) by omega]

/-- If attempts `a, …, a+i-1` fail retryably with the context live, attempt
`a+i` fails retryably with the context done, and at least two units of fuel
remain at attempt `a+i`, the loop stops after attempt `a+i` with `ctx.Err()`. -/
lemma doRequestLoop_cancel_at (u : String → Option APIErrorBody)
    (cfg : RetryConfig) (m p : String) (ev : Nat → AttemptEvent) (i : Nat) :
    ∀ (a fuel : Nat) (last : Option UcotronError),
      (∀ j, j < i → isRetryable (ev (a + j)).outcome = true ∧
        (ev (a + j)).ctxDoneAtSelect = false) →
      isRetryable (ev (a + i)).outcome = true →
      (ev (a + i)).ctxDoneAtSelect = true →
      i + 2 ≤ fuel →
      (doRequestLoop u cfg m p ev a fuel last).attempts = i + 1 ∧
      (doRequestLoop u cfg m p ev a fuel last).result = .error .ctxCanceled := by
  induction i with
  | zero =>
    intro a fuel last _ hf hc hfuel
    obtain ⟨g, rfl⟩ : ∃ g, fuel = g + 2 := ⟨fuel - 2, by omega⟩
    rw [Nat.add_zero] at hf hc
    rw [doRequestLoop_cancel u cfg m p ev a g last hf hc]
    exact ⟨rfl, rfl⟩
  | succ n ih =>
    intro a fuel last hpre hf hc hfuel
    obtain ⟨g, rfl⟩ : ∃ g, fuel = g + 2 := ⟨fuel - 2, by omega⟩
    have h0 := hpre 0 (by omega)
    rw [Nat.add_zero] at h0
    rw [doRequestLoop_step u cfg m p ev a g last h0.1 h0.2]
    dsimp only
    have hpre' : ∀ j, j < n → isRetryable (ev (a + 1 + j)).outcome = true ∧
        (ev (a + 1 + j)).ctxDoneAtSelect = false := by
      intro j hj
      have := hpre (j + 1) (by omega)
      rwa [show a + (j + 1) = a + 1 + j by omega] at this
    have hf' : isRetryable (ev (a + 1 + n)).outcome = true := by
      rwa [show a + 1 + n = a + (n + 1) by omega]
    have hc' : (ev (a + 1 + n)).ctxDoneAtSelect = true := by
      rwa [show a + 1 + n = a + (n + 1) by omega]
    have h := ih (a + 1) (g + 1) (some (recordedErr u m p (ev a).outcome))
      hpre' hf' hc' (by omega)
    exact ⟨by rw [h.1], h.2⟩

/-- An unmarshal function that always fails (e.g. every body is malformed
JSON), used to instantiate theorems at concrete inputs. -/
def unmarshalFail : String → Option APIErrorBody := fun _ => none

/-- `parseServerError` always carries the HTTP status code it was given. -/
lemma parseServerError_StatusCode (u : String → Option APIErrorBody)
    (s : Nat) (b : String) : (parseServerError u s b).StatusCode = s := by
  unfold parseServerError
  rcases u b with _ | a
  · rfl
  · dsimp only
    split <;> rfl

/-! ## Claim theorems -/

/-- C1: with `maxRetries = N ≥ 0` configured, a call whose every attempt
receives a 5xx response makes exactly `N + 1` transport attempts and returns
`UcotronRetriesExhaustedError` with `Attempts = N + 1` and `LastError` the
`UcotronServerError` parsed from the last 5xx response. -/
theorem retries_exhausted_after_persistent_5xx
    (N : Nat) (u : String → Option APIErrorBody) (c : Client) (m p : String)
    (ev : Nat → AttemptEvent) (sf : Nat → Nat) (bf : Nat → String)
    (hN : c.retryConfig.MaxRetries = (N : Int))
    (hev : ∀ j, j ≤ N → ev j = ⟨.response (sf j) (bf j), false⟩)
    (h5 : ∀ j, j ≤ N → 500 ≤ sf j ∧ sf j < 600) :
    (doRequest u c m p ev).attempts = N + 1 ∧
    (doRequest u c m p ev).result =
      .error (.retriesExhausted ((N : Int) + 1)
        (some (.server (parseServerError u (sf N) (bf N))))) := by
  unfold doRequest
  rw [hN, show ((N : Int) + 1).toNat = N + 1 from by omega]
  have hpre : ∀ j, j < N → isRetryable (ev (0 + j)).outcome = true ∧
      (ev (0 + j)).ctxDoneAtSelect = false := by
    intro j hj
    rw [Nat.zero_add, hev j (by omega)]
    exact ⟨isRetryable_of_5xx _ _ (h5 j (by omega)).1, rfl⟩
  have hf : isRetryable (ev (0 + N)).outcome = true := by
    rw [Nat.zero_add, hev N (le_refl N)]
    exact isRetryable_of_5xx _ _ (h5 N (le_refl N)).1
  have h := doRequestLoop_all_retryable u c.retryConfig m p ev N 0 none hpre hf
  refine ⟨h.1, ?_⟩
  rw [h.2, Nat.zero_add, hev N (le_refl N), hN]
  rfl

/-- Witness for C1 at `N = 1`, every attempt answering 503. -/
theorem retries_exhausted_after_persistent_5xx_witness :
    (doRequest unmarshalFail ⟨"h", 30000, ⟨1, 100, 1000⟩, "default"⟩ "GET" "/x"
      (fun _ => ⟨.response 503 "oops", false⟩)).attempts = 2 ∧
    (doRequest unmarshalFail ⟨"h", 30000, ⟨1, 100, 1000⟩, "default"⟩ "GET" "/x"
      (fun _ => ⟨.response 503 "oops", false⟩)).result =
      .error (.retriesExhausted 2
        (some (.server (parseServerError unmarshalFail 503 "oops")))) := by
  exact retries_exhausted_after_persistent_5xx 1 unmarshalFail
    ⟨"h", 30000, ⟨1, 100, 1000⟩, "default"⟩ "GET" "/x"
    (fun _ => ⟨.response 503 "oops", false⟩) (fun _ => 503) (fun _ => "oops")
    rfl (fun _ _ => rfl) (fun _ _ => by refine ⟨?_, ?_⟩ <;> norm_num)

/-- C2: a 4xx response ends the call after exactly one transport attempt,
with no backoff sleep, returning the parsed `UcotronServerError` (whose
`StatusCode` matches the response) directly — never wrapped in a
`UcotronRetriesExhaustedError` — for every configured `MaxRetries`. -/
theorem client_error_4xx_immediate
    (u : String → Option APIErrorBody) (c : Client) (m p : String)
    (ev : Nat → AttemptEvent) (s : Nat) (b : String)
    (hM : 0 ≤ c.retryConfig.MaxRetries)
    (ho : (ev 0).outcome = .response s b)
    (h4 : 400 ≤ s) (h4' : s < 500) :
    doRequest u c m p ev =
      ⟨1, [], .error (.server (parseServerError u s b))⟩ ∧
    (parseServerError u s b).StatusCode = s := by
  refine ⟨?_, parseServerError_StatusCode u s b⟩
  unfold doRequest
  obtain ⟨k, hk⟩ : ∃ k, (c.retryConfig.MaxRetries + 1).toNat = k + 1 :=
    ⟨c.retryConfig.MaxRetries.toNat, by omega⟩
  rw [hk]
  exact doRequestLoop_clientError u c.retryConfig m p ev 0 k none s b ho ⟨h4, h4'⟩

/-- Witness for C2 at a 404 response with `MaxRetries = 3`. -/
theorem client_error_4xx_immediate_witness :
    doRequest unmarshalFail ⟨"h", 30000, ⟨3, 100, 5000⟩, "default"⟩ "GET" "/x"
      (fun _ => ⟨.response 404 "nf", false⟩) =
      ⟨1, [], .error (.server (parseServerError unmarshalFail 404 "nf"))⟩ ∧
    (parseServerError unmarshalFail 404 "nf").StatusCode = 404 := by
  exact client_error_4xx_immediate unmarshalFail
    ⟨"h", 30000, ⟨3, 100, 5000⟩, "default"⟩ "GET" "/x"
    (fun _ => ⟨.response 404 "nf", false⟩) 404 "nf" (by decide) rfl
    (by decide) (by decide)

/-- C3: the backoff delay after the failure of attempt `k` is
`min(BaseDelayMs * 2^k, MaxDelayMs)` — the cap applies even when
`MaxDelayMs < BaseDelayMs` — and with `BaseDelayMs = 100`,
`MaxDelayMs = 1000` the delays for `k = 0, 1, 2, 4` are 100, 200, 400,
1000 ms. -/
theorem retryDelay_exponential_capped (cfg : RetryConfig) (k : Nat)
    (_hb : 0 < cfg.BaseDelayMs) (_hm : 0 < cfg.MaxDelayMs) :
    retryDelayMs cfg k = min (cfg.BaseDelayMs * 2 ^ k) cfg.MaxDelayMs ∧
    retryDelayMs ⟨3, 100, 1000⟩ 0 = 100 ∧
    retryDelayMs ⟨3, 100, 1000⟩ 1 = 200 ∧
    retryDelayMs ⟨3, 100, 1000⟩ 2 = 400 ∧
    retryDelayMs ⟨3, 100, 1000⟩ 4 = 1000 := by
  refine ⟨?_, by decide, by decide, by decide, by decide⟩
  unfold retryDelayMs
  dsimp only
  rw [min_def]
  generalize cfg.BaseDelayMs * 2 ^ k = d
  split <;> split <;> omega

/-- Witness for C3 at `BaseDelayMs = 100`, `MaxDelayMs = 1000`, `k = 2`. -/
theorem retryDelay_exponential_capped_witness :
    retryDelayMs ⟨3, 100, 1000⟩ 2 = min ((100 : Int) * 2 ^ 2) 1000 ∧
    retryDelayMs ⟨3, 100, 1000⟩ 0 = 100 ∧
    retryDelayMs ⟨3, 100, 1000⟩ 1 = 200 ∧
    retryDelayMs ⟨3, 100, 1000⟩ 2 = 400 ∧
    retryDelayMs ⟨3, 100, 1000⟩ 4 = 1000 := by
  exact retryDelay_exponential_capped ⟨3, 100, 1000⟩ 2 (by decide) (by decide)

/-- C4 counterexample: a client constructed with **no** configuration (so no
user-supplied default namespace) making a call with **no** per-call override
still sends the `X-Ucotron-Namespace` header — with value `"default"` —
whereas the claim states the header is omitted entirely in this case.
(`doRequest` calls `req.Header.Set(namespaceHeader, ns)` unconditionally, and
`NewClient` falls back to the namespace `"default"`.) -/
theorem namespace_header_sent_unconfigured :
    List.lookup namespaceHeader
      (requestHeaders false
        (resolveNamespace (NewClient "http://localhost:8420" none) "")) =
      some "default" := by
  rfl

/-- C4 amended: the namespace header value equals the per-call override when
one is supplied, else the client's default namespace; the header is always
present (never omitted), and `NewClient` makes the default namespace
`"default"` whenever none is configured. -/
theorem namespace_header_resolution
    (c : Client) (override : String) (hasBody : Bool) (url : String)
    (cfg : Option ClientConfig) :
    List.lookup namespaceHeader
      (requestHeaders hasBody (resolveNamespace c override)) =
      some (if override ≠ "" then override else c.defaultNamespace) ∧
    (NewClient url none).defaultNamespace = "default" ∧
    (∀ k, (NewClient url (some k)).defaultNamespace =
      (if k.DefaultNamespace ≠ "" then k.DefaultNamespace else "default")) ∧
    (List.lookup namespaceHeader
      (requestHeaders hasBody (resolveNamespace (NewClient url cfg) override))).isSome
      = true := by
  refine ⟨?_, rfl, fun k => rfl, ?_⟩
  · cases hasBody <;>
      simp [requestHeaders, resolveNamespace, namespaceHeader, List.lookup]
  · cases hasBody <;>
      simp [requestHeaders, resolveNamespace, namespaceHeader, List.lookup]

/-- C5 counterexample: with `MaxRetries = 0`, the caller's cancellation
firing while the single attempt's network request is in flight (so
`httpClient.Do` fails and the context is done) does **not** produce a
cancellation-specific error: because this was the final allowed attempt the
`select` on `ctx.Done()` is skipped, and the call returns a
`UcotronRetriesExhaustedError` wrapping the connection error instead. -/
theorem cancellation_final_attempt_not_ctx_error :
    doRequest unmarshalFail
      (NewClient "http://h" (some ⟨0, some ⟨0, 0, 0⟩, ""⟩)) "GET" "/x"
      (fun _ => ⟨.connFail, true⟩) =
      ⟨1, [], .error (.retriesExhausted 1
        (some (.connection "request to GET /x failed")))⟩ := by
  rfl

/-- C5 amended: if the cancellation signal is observed at attempt `i` (all
earlier attempts having failed retryably with the context live, attempt `i`
failing retryably with the context done), then no further transport attempt
starts — the call makes exactly `i + 1` attempts — and: when further attempts
remained (`i < MaxRetries`) the call fails with the context's
cancellation error (distinct from the Ucotron error types); but when attempt
`i` was the final allowed attempt (`i = MaxRetries`) it fails with a
`UcotronRetriesExhaustedError` wrapping the last recorded error instead. -/
theorem cancellation_stops_call
    (u : String → Option APIErrorBody) (c : Client) (m p : String)
    (ev : Nat → AttemptEvent) (i : Nat)
    (hpre : ∀ j, j < i → isRetryable (ev j).outcome = true ∧
      (ev j).ctxDoneAtSelect = false)
    (hf : isRetryable (ev i).outcome = true)
    (hc : (ev i).ctxDoneAtSelect = true)
    (hle : (i : Int) ≤ c.retryConfig.MaxRetries) :
    (doRequest u c m p ev).attempts = i + 1 ∧
    ((i : Int) < c.retryConfig.MaxRetries →
      (doRequest u c m p ev).result = .error .ctxCanceled) ∧
    ((i : Int) = c.retryConfig.MaxRetries →
      (doRequest u c m p ev).result =
        .error (.retriesExhausted (c.retryConfig.MaxRetries + 1)
          (some (recordedErr u m p (ev i).outcome)))) := by
  have hpre0 : ∀ j, j < i → isRetryable (ev (0 + j)).outcome = true ∧
      (ev (0 + j)).ctxDoneAtSelect = false := by
    intro j hj
    rw [Nat.zero_add]
    exact hpre j hj
  have hf0 : isRetryable (ev (0 + i)).outcome = true := by
    rwa [Nat.zero_add]
  have hc0 : (ev (0 + i)).ctxDoneAtSelect = true := by
    rwa [Nat.zero_add]
  rcases lt_or_eq_of_le hle with hlt | heq
  · have h := doRequestLoop_cancel_at u c.retryConfig m p ev i 0
      (c.retryConfig.MaxRetries + 1).toNat none hpre0 hf0 hc0 (by omega)
    exact ⟨h.1, fun _ => h.2, fun heq' => absurd heq' (by omega)⟩
  · have hfuel : (c.retryConfig.MaxRetries + 1).toNat = i + 1 := by omega
    have h := doRequestLoop_all_retryable u c.retryConfig m p ev i 0 none
      hpre0 hf0
    unfold doRequest
    rw [hfuel]
    refine ⟨h.1, fun hlt' => absurd hlt' (by omega), fun _ => ?_⟩
    rw [h.2, Nat.zero_add]

/-- Witness for C5-as-amended: `MaxRetries = 2`, cancellation observed at
attempt 0 (in flight, context done at the `select`), so the call makes one
attempt and fails with the cancellation error. -/
theorem cancellation_stops_call_witness :
    (doRequest unmarshalFail ⟨"h", 30000, ⟨2, 100, 1000⟩, "default"⟩ "GET" "/x"
      (fun _ => ⟨.connFail, true⟩)).attempts = 1 ∧
    ((0 : Int) < (2 : Int) →
      (doRequest unmarshalFail ⟨"h", 30000, ⟨2, 100, 1000⟩, "default"⟩ "GET" "/x"
        (fun _ => ⟨.connFail, true⟩)).result = .error .ctxCanceled) ∧
    ((0 : Int) = (2 : Int) →
      (doRequest unmarshalFail ⟨"h", 30000, ⟨2, 100, 1000⟩, "default"⟩ "GET" "/x"
        (fun _ => ⟨.connFail, true⟩)).result =
        .error (.retriesExhausted ((2 : Int) + 1)
          (some (recordedErr unmarshalFail "GET" "/x"
            ((fun (_ : Nat) => (⟨.connFail, true⟩ : AttemptEvent)) 0).outcome)))) := by
  exact cancellation_stops_call unmarshalFail
    ⟨"h", 30000, ⟨2, 100, 1000⟩, "default"⟩ "GET" "/x"
    (fun _ => ⟨.connFail, true⟩) 0 (fun j hj => absurd hj (by omega))
    rfl rfl (by decide)

/-- C6: when exactly the first attempt fails — with a connection-level
transport failure or a 5xx response, the context staying live — and the
second attempt returns a 2xx response, a call with `MaxRetries ≥ 1` makes
exactly 2 transport attempts and returns the second attempt's body. -/
theorem retry_once_then_succeed
    (u : String → Option APIErrorBody) (c : Client) (m p : String)
    (ev : Nat → AttemptEvent) (s : Nat) (b : String)
    (hM : 1 ≤ c.retryConfig.MaxRetries)
    (h0 : (ev 0).outcome = .connFail ∨ (ev 0).outcome = .readFail ∨
      ∃ s0 b0, (ev 0).outcome = .response s0 b0 ∧ 500 ≤ s0 ∧ s0 < 600)
    (hc0 : (ev 0).ctxDoneAtSelect = false)
    (ho1 : (ev 1).outcome = .response s b) (h2 : 200 ≤ s ∧ s < 300) :
    (doRequest u c m p ev).attempts = 2 ∧
    (doRequest u c m p ev).result = .ok b := by
  have hr0 : isRetryable (ev 0).outcome = true := by
    rcases h0 with h | h | ⟨s0, b0, h, h5⟩
    · rw [h]; rfl
    · rw [h]; rfl
    · rw [h]; exact isRetryable_of_5xx s0 b0 h5.1
  unfold doRequest
  obtain ⟨g, hg⟩ : ∃ g, (c.retryConfig.MaxRetries + 1).toNat = g + 2 :=
    ⟨(c.retryConfig.MaxRetries + 1).toNat - 2, by omega⟩
  rw [hg, doRequestLoop_step u c.retryConfig m p ev 0 g none hr0 hc0]
  dsimp only
  rw [doRequestLoop_success u c.retryConfig m p ev (0 + 1) g
    (some (recordedErr u m p (ev 0).outcome)) s b (by rwa [Nat.zero_add]) h2]
  exact ⟨rfl, rfl⟩

/-- Witness for C6: `MaxRetries = 3`, attempt 0 answers 500, attempt 1
answers 200 with body `"yay"`. -/
theorem retry_once_then_succeed_witness :
    (doRequest unmarshalFail ⟨"h", 30000, ⟨3, 100, 5000⟩, "default"⟩ "GET" "/x"
      (fun i => if i = 0 then ⟨.response 500 "b", false⟩
                else ⟨.response 200 "yay", false⟩)).attempts = 2 ∧
    (doRequest unmarshalFail ⟨"h", 30000, ⟨3, 100, 5000⟩, "default"⟩ "GET" "/x"
      (fun i => if i = 0 then ⟨.response 500 "b", false⟩
                else ⟨.response 200 "yay", false⟩)).result = .ok "yay" := by
  exact retry_once_then_succeed unmarshalFail
    ⟨"h", 30000, ⟨3, 100, 5000⟩, "default"⟩ "GET" "/x"
    (fun i => if i = 0 then ⟨.response 500 "b", false⟩
              else ⟨.response 200 "yay", false⟩) 200 "yay" (by decide)
    (Or.inr (Or.inr ⟨500, "b", rfl, by decide, by decide⟩)) rfl rfl
    (by decide)

/-- Whether a call result is a **bare** connection error at top level (as
opposed to one wrapped inside a `UcotronRetriesExhaustedError`). -/
def isBareConnectionError : Except UcotronError String → Bool
  | .error (.connection _) => true
  | _ => false

/-- C7 (loop form): no matter the outcomes, the attempt loop never resolves
with a bare connection error: every transport failure is either retried or
wrapped as `LastError` inside a `UcotronRetriesExhaustedError`. -/
lemma doRequestLoop_no_bare_connection (u : String → Option APIErrorBody)
    (cfg : RetryConfig) (m p : String) (ev : Nat → AttemptEvent) (fuel : Nat) :
    ∀ (a : Nat) (last : Option UcotronError),
      isBareConnectionError (doRequestLoop u cfg m p ev a fuel last).result
        = false := by
  induction fuel with
  | zero => intro a last; rfl
  | succ n ih =>
    intro a last
    rw [doRequestLoop.eq_def]
    dsimp only
    cases ho : (ev a).outcome with
    | connFail =>
      cases n with
      | zero => rfl
      | succ f =>
        dsimp only
        split
        · rfl
        · exact ih (a + 1) _
    | readFail =>
      cases n with
      | zero => rfl
      | succ f =>
        dsimp only
        split
        · rfl
        · exact ih (a + 1) _
    | response s b =>
      dsimp only
      split
      · rfl
      · split
        · rfl
        · cases n with
          | zero => rfl
          | succ f =>
            dsimp only
            split
            · rfl
            · exact ih (a + 1) _

/-- C7: a `UcotronConnectionError` is never returned directly to the caller
of `doRequest`: the executor surfaces only success, `UcotronServerError`,
`UcotronRetriesExhaustedError` (possibly wrapping the connection error as
`LastError`), or the cancellation error. -/
theorem no_bare_connection_error (u : String → Option APIErrorBody)
    (c : Client) (m p : String) (ev : Nat → AttemptEvent) :
    isBareConnectionError (doRequest u c m p ev).result = false :=
  doRequestLoop_no_bare_connection u c.retryConfig m p ev
    (c.retryConfig.MaxRetries + 1).toNat 0 none

/-- An unmarshal function standing for a body that is a valid JSON object
with non-empty `message`, used to instantiate theorems at concrete inputs. -/
def unmarshalBadRequest : String → Option APIErrorBody :=
  fun _ => some ⟨"bad_request", "oops"⟩

/-- C8: for every status code and error body — if `json.Unmarshal` yields an
`APIErrorBody` with a non-empty `Message`, the `UcotronServerError` carries
that body's code and message; otherwise (Unmarshal failed, or the `message`
field is absent/empty so the zero value `""` remains) it carries the HTTP
reason phrase as code and the raw body text as message.  The parse is a total
function: it never raises. -/
theorem parseServerError_best_effort (u : String → Option APIErrorBody)
    (s : Nat) (body : String) :
    (∀ a, u body = some a → a.Message ≠ "" →
      parseServerError u s body = ⟨s, a.Code, a.Message⟩) ∧
    (u body = none →
      parseServerError u s body = ⟨s, statusText s, body⟩) ∧
    (∀ a, u body = some a → a.Message = "" →
      parseServerError u s body = ⟨s, statusText s, body⟩) := by
  refine ⟨?_, ?_, ?_⟩
  · intro a ha hm
    unfold parseServerError
    rw [ha]
    dsimp only
    rw [if_pos hm]
  · intro h
    unfold parseServerError
    rw [h]
  · intro a ha hm
    unfold parseServerError
    rw [ha]
    dsimp only
    rw [if_neg (by simp [hm])]

/-- Witness for C8: a parseable body with non-empty message keeps its code
and message; a malformed body on a 500 falls back to the reason phrase
`"Internal Server Error"` and the raw body text. -/
theorem parseServerError_best_effort_witness :
    parseServerError unmarshalBadRequest 400 "raw" = ⟨400, "bad_request", "oops"⟩ ∧
    parseServerError unmarshalFail 500 "not json" =
      ⟨500, "Internal Server Error", "not json"⟩ := by
  exact ⟨(parseServerError_best_effort unmarshalBadRequest 400 "raw").1
      ⟨"bad_request", "oops"⟩ rfl (by decide),
    (parseServerError_best_effort unmarshalFail 500 "not json").2.1 rfl⟩

/-- C9: every request carries the `X-Ucotron-Namespace` header.  When the
client is built without a `DefaultNamespace` (nil config or empty string) and
the call supplies no override — as `Health` and `Metrics` always do, passing
`""` — the header is sent with the literal value `"default"`; the header is
never omitted for any namespace value. -/
theorem namespace_header_always_present
    (url : String) (cfg : Option ClientConfig)
    (hns : ∀ k, cfg = some k → k.DefaultNamespace = "") :
    resolveNamespace (NewClient url cfg) "" = "default" ∧
    List.lookup namespaceHeader (healthRequestHeaders (NewClient url cfg)) =
      some "default" ∧
    (∀ hasBody ns,
      (List.lookup namespaceHeader (requestHeaders hasBody ns)).isSome = true) := by
  have hd : (NewClient url cfg).defaultNamespace = "default" := by
    cases cfg with
    | none => rfl
    | some k =>
      have hk := hns k rfl
      unfold NewClient
      dsimp only
      rw [if_neg (by simp [hk])]
  have hres : resolveNamespace (NewClient url cfg) "" = "default" := by
    unfold resolveNamespace
    rw [if_neg (by simp), hd]
  refine ⟨hres, ?_, ?_⟩
  · unfold healthRequestHeaders
    rw [hres]
    rfl
  · intro hasBody ns
    cases hasBody <;>
      simp [requestHeaders, namespaceHeader, List.lookup]

/-- Witness for C9 at a client built with nil config. -/
theorem namespace_header_always_present_witness :
    resolveNamespace (NewClient "http://localhost:8420" none) "" = "default" ∧
    List.lookup namespaceHeader
      (healthRequestHeaders (NewClient "http://localhost:8420" none)) =
      some "default" ∧
    (∀ hasBody ns,
      (List.lookup namespaceHeader (requestHeaders hasBody ns)).isSome = true) := by
  exact namespace_header_always_present "http://localhost:8420" none
    (fun k hk => by cases hk)

/-- C10: for every input configuration (including nil config, nil `Retry`,
negative `MaxRetries`, non-positive delays or timeout), the constructed
client satisfies `MaxRetries ≥ 0`, `BaseDelayMs > 0`, `MaxDelayMs > 0` and a
positive timeout; each invalid or absent field is replaced by its default
(`MaxRetries` 3, `BaseDelayMs` 100, `MaxDelayMs` 5000, `TimeoutMs` 30000)
while valid fields are taken verbatim. -/
theorem NewClient_config_normalization (url : String) (cfg : Option ClientConfig) :
    (0 ≤ (NewClient url cfg).retryConfig.MaxRetries ∧
     0 < (NewClient url cfg).retryConfig.BaseDelayMs ∧
     0 < (NewClient url cfg).retryConfig.MaxDelayMs ∧
     0 < (NewClient url cfg).timeoutMs) ∧
    (NewClient url none).retryConfig = ⟨3, 100, 5000⟩ ∧
    (NewClient url none).timeoutMs = 30000 ∧
    (∀ k, cfg = some k →
      (NewClient url cfg).timeoutMs =
        (if 0 < k.TimeoutMs then k.TimeoutMs else 30000) ∧
      (k.Retry = none → (NewClient url cfg).retryConfig = ⟨3, 100, 5000⟩) ∧
      (∀ r, k.Retry = some r →
        (NewClient url cfg).retryConfig =
          ⟨if 0 ≤ r.MaxRetries then r.MaxRetries else 3,
           if 0 < r.BaseDelayMs then r.BaseDelayMs else 100,
           if 0 < r.MaxDelayMs then r.MaxDelayMs else 5000⟩)) := by
  refine ⟨?_, rfl, rfl, ?_⟩
  · cases cfg with
    | none =>
      exact ⟨(by decide : (0 : Int) ≤ 3), (by decide : (0 : Int) < 100),
        (by decide : (0 : Int) < 5000), (by decide : (0 : Int) < 30000)⟩
    | some k =>
      unfold NewClient
      dsimp only
      simp only [defaultTimeoutMs, defaultMaxRetries, defaultBaseDelayMs,
        defaultMaxDelayMs]
      cases hR : k.Retry with
      | none =>
        refine ⟨by decide, by decide, by decide, ?_⟩
        split <;> omega
      | some r =>
        dsimp only
        refine ⟨?_, ?_, ?_, ?_⟩ <;> split <;> omega
  · intro k hk
    subst hk
    refine ⟨rfl, ?_, ?_⟩
    · intro hR
      unfold NewClient
      dsimp only
      rw [hR]
      rfl
    · intro r hR
      unfold NewClient
      dsimp only
      rw [hR]
      rfl

/-- Witness for C10: an all-invalid configuration (`TimeoutMs = -5`,
`MaxRetries = -1`, `BaseDelayMs = 0`, `MaxDelayMs = -7`) yields exactly the
default client parameters. -/
theorem NewClient_config_normalization_witness :
    (NewClient "u" (some ⟨-5, some ⟨-1, 0, -7⟩, ""⟩)).retryConfig =
      ⟨3, 100, 5000⟩ ∧
    (NewClient "u" (some ⟨-5, some ⟨-1, 0, -7⟩, ""⟩)).timeoutMs = 30000 := by
  have h := NewClient_config_normalization "u" (some ⟨-5, some ⟨-1, 0, -7⟩, ""⟩)
  have h2 := h.2.2.2 ⟨-5, some ⟨-1, 0, -7⟩, ""⟩ rfl
  constructor
  · rw [h2.2.2 ⟨-1, 0, -7⟩ rfl]
    decide
  · rw [h2.1]
    decide

end Ucotron
